import Mathlib

/-!
Shallow embedding of the SecuRizz Solana programs
(`programs/securizz/src/lib.rs` and
`programs/securizz/src/token_economics.rs`).

Machine integers are modelled as `Nat` (u64/u8) and `Int` (i64), with
wrapping applied explicitly at every operation where the Rust source
performs raw (unchecked) arithmetic, matching the release-profile
wrapping semantics of the source (the source sets no overflow checks and
uses no `checked_*` operation). `as` casts between i64 and u64 are
modelled exactly as Rust defines them (bit reinterpretation, i.e. value
mod 2^64). Fallible instructions return `Except ErrorCode _`; an
`Except.error` result models the transaction aborting with no account
mutation (in the source every `require!` runs before any field write,
and the runtime discards state on error).
-/

namespace SecuRizz

/-- 2^64, the modulus of Rust `u64` arithmetic. -/
def u64Mod : Nat := 18446744073709551616

/-- 2^63, the boundary between the nonnegative and negative halves of `i64`. -/
def i64Half : Nat := 9223372036854775808

/-- Wrapping of a `Nat` into the `u64` range, the effect of Rust's
release-profile `u64` addition/multiplication overflow. -/
def wrap64 (n : Nat) : Nat := n % u64Mod

/-- Rust `u64` wrapping subtraction `a - b` (valid for `a b < 2^64`). -/
def wsub64 (a b : Nat) : Nat := (u64Mod + a - b) % u64Mod

/-- Rust's `x as u64` cast of an `i64` value: the value mod 2^64. -/
def u64ofI64 (x : Int) : Nat := (x % (18446744073709551616 : Int)).toNat

/-- Rust's `x as i64` cast of a `u64` value: bit reinterpretation into
the signed range. -/
def i64ofU64 (n : Nat) : Int :=
  if n % u64Mod < i64Half then ((n % u64Mod : Nat) : Int)
  else ((n % u64Mod : Nat) : Int) - 18446744073709551616

/-- Wrapping of an `Int` into the `i64` range, the effect of Rust's
release-profile `i64` addition/subtraction overflow. -/
def i64wrap (x : Int) : Int := i64ofU64 (u64ofI64 x)

/-- Rust release-profile `i64` addition. -/
def iadd64 (a b : Int) : Int := i64wrap (a + b)

/-- Rust release-profile `i64` subtraction. -/
def isub64 (a b : Int) : Int := i64wrap (a - b)

/-- Account identities (`Pubkey` in the source) are only stored and
compared for equality, so they are modelled by their value. -/
abbrev Pubkey := Nat

/-- 32-byte digests (`[u8; 32]` in the source) are only stored and
compared for equality, so they are modelled by their value. -/
abbrev Hash32 := Nat

/-- Union of the two source `ErrorCode` enums (lib.rs:198-210 and
token_economics.rs:295-309), plus the account-validation failures the
Anchor `#[derive(Accounts)]` declarations in the source produce before a
handler body runs: `AlreadyExists` (an `init` account that already
exists, e.g. `SubmitProof.audit_proof`), `AlreadyVoted` (the `init`
`VoteOnProposal.vote_account`), and `AccountMissing` (a declared
non-`init` account, e.g. `VoteOnProposal.stake_account`, that does not
exist). -/
inductive ErrorCode where
  | Unauthorized
  | InvalidRiskScore
  | ProofNotFound
  | HashMismatch
  | InvalidAuditScore
  | InvalidAmount
  | InvalidDuration
  | StakeNotUnlocked
  | NoRewardsAvailable
  | InsufficientStake
  | InvalidVoteWeight
  | AlreadyExists
  | AlreadyVoted
  | AccountMissing
deriving Repr, DecidableEq

/-- The `AuditProof` account (lib.rs:148-160), field for field. -/
structure AuditProof where
  contract_hash : Hash32
  report_hash : Hash32
  ipfs_cid : String
  contract_address : Pubkey
  audit_score : Nat
  risk_score : Nat
  timestamp : Int
  verification_timestamp : Int
  verified : Bool
  oracle : Pubkey
deriving Repr, DecidableEq

/-- The `ProofRetrieved` event (lib.rs:178-188), field for field. -/
structure ProofRetrieved where
  contract_hash : Hash32
  report_hash : Hash32
  contract_address : Pubkey
  ipfs_cid : String
  audit_score : Nat
  risk_score : Nat
  timestamp : Int
  verified : Bool
deriving Repr, DecidableEq

/-- The registry of `AuditProof` accounts, keyed by `contract_hash` via
the PDA seeds `[b"audit_proof", contract_hash]` (lib.rs:116). -/
def Store := Hash32 → Option AuditProof

/-- `submit_proof` (lib.rs:9-41). The occupancy check models the
`init` constraint on `SubmitProof.audit_proof` (lib.rs:112-118): Anchor
refuses to initialize an account that already exists, so a second
submission for the same `contract_hash` aborts without touching the
stored record. The handler body performs no validation of its own
(in particular, no range check on `audit_score`) and writes every field;
`verification_timestamp` keeps the zero the freshly `init`-ed account
starts with. -/
def submit_proof (st : Store) (oracle : Pubkey) (contract_hash report_hash : Hash32)
    (ipfs_cid : String) (risk_score : Nat) (contract_address : Pubkey)
    (audit_score : Nat) (now : Int) : Except ErrorCode (Store × AuditProof) :=
  match st contract_hash with
  | some _ => .error .AlreadyExists
  | none =>
    let p : AuditProof :=
      { contract_hash, report_hash, ipfs_cid, contract_address, audit_score,
        risk_score, timestamp := now, verification_timestamp := 0,
        verified := false, oracle }
    .ok (fun k => if k = contract_hash then some p else st k, p)

/-- `update_verification` (lib.rs:43-62): requires the signing
`authority` to equal the stored `oracle`, then sets `verified`. -/
def update_verification (p : AuditProof) (authority : Pubkey) (verified : Bool) :
    Except ErrorCode AuditProof :=
  if authority = p.oracle then .ok { p with verified := verified }
  else .error .Unauthorized

/-- `get_proof` (lib.rs:64-79): a pure projection of the record into the
`ProofRetrieved` event; the account is taken immutably and no field is
written. -/
def get_proof (p : AuditProof) : ProofRetrieved :=
  { contract_hash := p.contract_hash, report_hash := p.report_hash,
    contract_address := p.contract_address, ipfs_cid := p.ipfs_cid,
    audit_score := p.audit_score, risk_score := p.risk_score,
    timestamp := p.timestamp, verified := p.verified }

/-- `verify_audit_integrity` (lib.rs:81-106): compares the
caller-supplied hash with the stored `report_hash`; on match sets
`verified := true` and stamps `verification_timestamp`. The signing
`authority` (lib.rs:145) is received but never compared with the stored
`oracle` in the source, so it does not influence the result. -/
def verify_audit_integrity (p : AuditProof) (authority : Pubkey)
    (expected_ipfs_hash : Hash32) (now : Int) : Except ErrorCode AuditProof :=
  if p.report_hash = expected_ipfs_hash then
    .ok { p with verified := true, verification_timestamp := now }
  else .error .HashMismatch

/-- The `StakeAccount` account (token_economics.rs:246-254), field for
field. -/
structure StakeAccount where
  user : Pubkey
  amount : Nat
  duration : Nat
  staked_at : Int
  unlock_time : Int
  rewards_claimed : Nat
deriving Repr, DecidableEq

/-- The `VoteAccount` account (token_economics.rs:256-263), field for
field. -/
structure VoteAccount where
  proposal_id : Nat
  voter : Pubkey
  vote_weight : Nat
  support : Bool
  voted_at : Int
deriving Repr, DecidableEq

/-- `stake_tokens` (token_economics.rs:26-62): validates `amount > 0`
then `duration >= 86400`, and creates the `StakeAccount` with
`unlock_time = staked_at + duration as i64` (raw i64 addition of the
raw u64-to-i64 cast of `duration`, exactly as in the source) and
`rewards_claimed = 0`. The token transfer into the pool is the external
collaborator and moves no record state. -/
def stake_tokens (user : Pubkey) (amount duration : Nat) (now : Int) :
    Except ErrorCode StakeAccount :=
  if amount > 0 then
    if duration ≥ 86400 then
      .ok { user, amount, duration, staked_at := now,
            unlock_time := iadd64 now (i64ofU64 duration), rewards_claimed := 0 }
    else .error .InvalidDuration
  else .error .InvalidAmount

/-- `claim_rewards` (token_economics.rs:65-98). After the unlock gate,
the source computes, with raw (unchecked, release-profile wrapping)
arithmetic:
`staking_duration = now - staked_at` (i64 subtraction),
`daily_rewards = amount / 100` (u64 division),
`total_rewards = (daily_rewards * staking_duration as u64) / 86400`
(the cast wraps negative values into huge u64s; the multiplication
wraps mod 2^64),
`claimable_rewards = total_rewards - rewards_claimed` (u64 wrapping
subtraction), then requires `claimable_rewards > 0` and adds it onto
`rewards_claimed` (u64 wrapping addition). Returns the updated account
and the amount transferred out of the pool. -/
def claim_rewards (s : StakeAccount) (now : Int) :
    Except ErrorCode (StakeAccount × Nat) :=
  if now ≥ s.unlock_time then
    let staking_duration : Int := isub64 now s.staked_at
    let daily_rewards : Nat := s.amount / 100
    let total_rewards : Nat := wrap64 (daily_rewards * u64ofI64 staking_duration) / 86400
    let claimable_rewards : Nat := wsub64 total_rewards s.rewards_claimed
    if claimable_rewards > 0 then
      .ok ({ s with rewards_claimed := wrap64 (s.rewards_claimed + claimable_rewards) },
           claimable_rewards)
    else .error .NoRewardsAvailable
  else .error .StakeNotUnlocked

/-- Stake accounts keyed by the staker, via the PDA seeds
`[b"stake", user]` (token_economics.rs:178, 237). -/
def Stakes := Pubkey → Option StakeAccount

/-- Vote accounts keyed by `(proposal_id, voter)`, via the PDA seeds
`[b"vote", proposal_id, voter]` (token_economics.rs:232). -/
def Votes := Nat × Pubkey → Option VoteAccount

/-- `vote_on_proposal` (token_economics.rs:127-153). Account validation
per the `VoteOnProposal` struct (token_economics.rs:226-244) runs first,
in declaration order: the `init` `vote_account` must not already exist
(else `AlreadyVoted`), and the seeds-addressed `stake_account` for the
voter must exist (else `AccountMissing`). The handler body then requires
`stake_account.amount >= vote_weight` (else `InsufficientStake`) and
`vote_weight > 0` (else `InvalidVoteWeight`), in that order, and writes
the immutable `VoteAccount`. -/
def vote_on_proposal (stakes : Stakes) (votes : Votes) (voter : Pubkey)
    (proposal_id vote_weight : Nat) (support : Bool) (now : Int) :
    Except ErrorCode (Votes × VoteAccount) :=
  match votes (proposal_id, voter) with
  | some _ => .error .AlreadyVoted
  | none =>
    match stakes voter with
    | none => .error .AccountMissing
    | some stake_account =>
      if stake_account.amount ≥ vote_weight then
        if vote_weight > 0 then
          let v : VoteAccount :=
            { proposal_id, voter, vote_weight, support, voted_at := now }
          .ok (fun k => if k = (proposal_id, voter) then some v else votes k, v)
        else .error .InvalidVoteWeight
      else .error .InsufficientStake

lemma wrap64_eq_self (n : Nat) (h : n < u64Mod) : wrap64 n = n :=
  Nat.mod_eq_of_lt h

lemma wsub64_eq (a b : Nat) (hb : b ≤ a) (ha : a < u64Mod) : wsub64 a b = a - b := by
  unfold wsub64 u64Mod at *
  omega

lemma i64wrap_eq_self (x : Int) (h1 : -(9223372036854775808 : Int) ≤ x)
    (h2 : x < (9223372036854775808 : Int)) : i64wrap x = x := by
  simp only [i64wrap, i64ofU64, u64ofI64, u64Mod, i64Half]
  split <;> omega

lemma u64ofI64_eq_toNat (x : Int) (h1 : 0 ≤ x)
    (h2 : x < (18446744073709551616 : Int)) : u64ofI64 x = x.toNat := by
  unfold u64ofI64
  omega

/-- Characterization of `claim_rewards` on inputs where none of the raw
operations wraps: the double-truncating order of the source,
`daily = amount / 100`, then `total = daily * elapsed / 86400`, then
`claimable = total - rewards_claimed`. -/
theorem claim_rewards_nowrap (s : StakeAccount) (now : Int)
    (hun : s.unlock_time ≤ now) (hst : s.staked_at ≤ now)
    (hlt : now - s.staked_at < (9223372036854775808 : Int))
    (hmul : s.amount / 100 * (now - s.staked_at).toNat < u64Mod)
    (hle : s.rewards_claimed ≤ s.amount / 100 * (now - s.staked_at).toNat / 86400) :
    claim_rewards s now =
      if s.amount / 100 * (now - s.staked_at).toNat / 86400 - s.rewards_claimed > 0 then
        .ok ({ s with
                rewards_claimed := s.amount / 100 * (now - s.staked_at).toNat / 86400 },
             s.amount / 100 * (now - s.staked_at).toNat / 86400 - s.rewards_claimed)
      else .error .NoRewardsAvailable := by
  have he : isub64 now s.staked_at = now - s.staked_at :=
    i64wrap_eq_self _ (by omega) hlt
  have hu : u64ofI64 (now - s.staked_at) = (now - s.staked_at).toNat :=
    u64ofI64_eq_toNat _ (by omega) (by omega)
  have hTlt : s.amount / 100 * (now - s.staked_at).toNat / 86400 < u64Mod :=
    lt_of_le_of_lt (Nat.div_le_self _ _) hmul
  simp only [claim_rewards]
  rw [if_pos (show now ≥ s.unlock_time from hun), he, hu,
    wrap64_eq_self _ hmul, wsub64_eq _ _ hle hTlt]
  have hadd : s.rewards_claimed +
      (s.amount / 100 * (now - s.staked_at).toNat / 86400 - s.rewards_claimed) =
      s.amount / 100 * (now - s.staked_at).toNat / 86400 := by omega
  rw [hadd, wrap64_eq_self _ hTlt]

/-- Claim C1: the spec demands checked arithmetic in `claim_rewards`
(overflow, underflow, or invalid division surfacing as
`ArithmeticError`) and clamping of a negative elapsed time. The source
does neither: its `ErrorCode` enum has no `ArithmeticError` variant at
all, a negative `staking_duration` is cast with `as u64` (wrapping to a
value near 2^64) rather than clamped to 0, and the reward
multiplication wraps mod 2^64 yet the call still returns `Ok`.
Clause 1: `stake_tokens` accepts `duration = 2^63`, whose raw cast and
addition make `unlock_time` negative. Clause 2: on that account a claim
at `now = -1 < staked_at = 0` (elapsed = -1) is not clamped: it pays
213503982334601 tokens on a 100-token stake. Clause 3: with
`amount = 10^19` the product `daily * elapsed = 10^23` exceeds 2^64, yet
the claim returns `Ok` with the wrapped quotient instead of any error. -/
theorem c1_raw_arithmetic_not_checked :
    stake_tokens 7 100 9223372036854775808 0 =
      .ok ⟨7, 100, 9223372036854775808, 0, -9223372036854775808, 0⟩
    ∧ claim_rewards ⟨7, 100, 9223372036854775808, 0, -9223372036854775808, 0⟩ (-1) =
      .ok (⟨7, 100, 9223372036854775808, 0, -9223372036854775808, 213503982334601⟩,
           213503982334601)
    ∧ 10000000000000000000 / 100 * 1000000 ≥ u64Mod
    ∧ claim_rewards ⟨7, 10000000000000000000, 86400, 0, 86400, 0⟩ 1000000 =
      .ok (⟨7, 10000000000000000000, 86400, 0, 86400, 2319171533804⟩,
           2319171533804) := by
  refine ⟨by rfl, by rfl, by decide, by rfl⟩

/-- Claim C3: the spec requires `submit_proof` to reject an
`audit_score` outside [0,100] with `InvalidAuditScore`; the source
declares that error variant but never uses it, and `submit_proof`
performs no range check: a submission with `audit_score = 150` succeeds
and stores 150. -/
theorem c3_missing_audit_score_check :
    150 > 100
    ∧ (submit_proof (fun _ => none) 1 10 20 "cid" 30 40 150 99).map (fun r => r.2) =
      .ok ⟨10, 20, "cid", 40, 150, 30, 99, 0, false, 1⟩ := by
  refine ⟨by decide, by rfl⟩

/-- Claim C2 counterexample: `verify_audit_integrity` does not compare
the signing authority with the stored `oracle`. Here the record's
`oracle` is 1, the caller is 9 ≠ 1, yet the call succeeds and mutates
`verified` and `verification_timestamp`, refuting the claim that both
operations mutate only when the caller equals the stored oracle. -/
theorem c2_verify_integrity_ignores_oracle :
    (9 : Pubkey) ≠ (⟨1, 2, "cid", 3, 42, 5, 100, 0, false, 1⟩ : AuditProof).oracle
    ∧ verify_audit_integrity ⟨1, 2, "cid", 3, 42, 5, 100, 0, false, 1⟩ 9 2 777 =
      .ok ⟨1, 2, "cid", 3, 42, 5, 100, 777, true, 1⟩ := by
  refine ⟨by decide, by rfl⟩

/-- Claim C2 amended: `update_verification` by a caller other than the
stored `oracle` fails `Unauthorized` (aborting with `verified`
unchanged), while `verify_audit_integrity` performs no caller check at
all — its result is independent of the signing authority, so any caller
whose supplied hash matches the stored `report_hash` mutates the
record. -/
theorem c2_update_verification_oracle_gated (p : AuditProof) (caller : Pubkey)
    (v : Bool) (a b : Pubkey) (h : Hash32) (now : Int) :
    (caller ≠ p.oracle → update_verification p caller v = .error .Unauthorized)
    ∧ verify_audit_integrity p a h now = verify_audit_integrity p b h now := by
  constructor
  · intro hne
    unfold update_verification
    rw [if_neg hne]
  · rfl

/-- Witness for the amended C2 at a concrete record with `oracle = 1`,
caller 9 for the update, and authorities 4 and 8 for the integrity
check. -/
theorem c2_update_verification_oracle_gated_witness :
    update_verification ⟨1, 2, "cid", 3, 42, 5, 100, 0, false, 1⟩ 9 true =
      .error .Unauthorized
    ∧ verify_audit_integrity ⟨1, 2, "cid", 3, 42, 5, 100, 0, false, 1⟩ 4 2 0 =
      verify_audit_integrity ⟨1, 2, "cid", 3, 42, 5, 100, 0, false, 1⟩ 8 2 0 :=
  ⟨(c2_update_verification_oracle_gated ⟨1, 2, "cid", 3, 42, 5, 100, 0, false, 1⟩
      9 true 4 8 2 0).1 (by decide),
   (c2_update_verification_oracle_gated ⟨1, 2, "cid", 3, 42, 5, 100, 0, false, 1⟩
      9 true 4 8 2 0).2⟩

/-- Claim C5: the spec's invariant — `rewards_claimed` starts at 0, is
monotonically non-decreasing, and stays ≤ accrued rewards — is broken
by the raw wrapping arithmetic of `claim_rewards`. With
`amount = 2.13*10^16` (so `daily_rewards = 2.13*10^14`) and strictly
increasing claim times 86400 then 86700 (both past the unlock time),
the first claim sets `rewards_claimed = 213000000000000`; at the second
claim the product `daily_rewards * elapsed` exceeds 2^64 and wraps, so
the claim pays out 18446531309310550348 tokens and leaves
`rewards_claimed = 235600998732`, strictly smaller than before:
`rewards_claimed` is not monotone. -/
theorem c5_rewards_claimed_not_monotone :
    stake_tokens 7 21300000000000000 86400 0 =
      .ok ⟨7, 21300000000000000, 86400, 0, 86400, 0⟩
    ∧ claim_rewards ⟨7, 21300000000000000, 86400, 0, 86400, 0⟩ 86400 =
      .ok (⟨7, 21300000000000000, 86400, 0, 86400, 213000000000000⟩,
           213000000000000)
    ∧ claim_rewards ⟨7, 21300000000000000, 86400, 0, 86400, 213000000000000⟩ 86700 =
      .ok (⟨7, 21300000000000000, 86400, 0, 86400, 235600998732⟩,
           18446531309310550348)
    ∧ 235600998732 < 213000000000000 := by
  refine ⟨by rfl, by rfl, by rfl, by decide⟩

/-- Claim C6: a `submit_proof` for an occupied `contract_hash` fails
`AlreadyExists` — the `init` constraint on the PDA derived from the
hash refuses to re-create the account — and, the transaction aborting,
the stored record is untouched. -/
theorem c6_submit_proof_exclusive (st : Store) (oracle : Pubkey)
    (ch rh : Hash32) (cid : String) (rs : Nat) (ca : Pubkey) (sc : Nat)
    (now : Int) (p : AuditProof) (hocc : st ch = some p) :
    submit_proof st oracle ch rh cid rs ca sc now = .error .AlreadyExists := by
  unfold submit_proof
  rw [hocc]

/-- Witness for C6: a store holding one proof at hash 10 rejects a
second submission for hash 10 with entirely different fields. -/
theorem c6_submit_proof_exclusive_witness :
    submit_proof
      (fun k => if k = 10 then some ⟨10, 20, "cid", 40, 42, 30, 99, 0, false, 1⟩ else none)
      2 10 21 "cid2" 31 41 43 100 = .error .AlreadyExists :=
  c6_submit_proof_exclusive
    (fun k => if k = 10 then some ⟨10, 20, "cid", 40, 42, 30, 99, 0, false, 1⟩ else none)
    2 10 21 "cid2" 31 41 43 100 ⟨10, 20, "cid", 40, 42, 30, 99, 0, false, 1⟩ (by rfl)

/-- Claim C7: `verify_audit_integrity` succeeds exactly when the
supplied hash equals the stored `report_hash`; on success the returned
record is the old one with `verified := true` and
`verification_timestamp := now` (no other field changes), and on
mismatch it fails `HashMismatch`, the abort leaving every field
unchanged. -/
theorem c7_verify_integrity_gate (p : AuditProof) (auth : Pubkey)
    (h : Hash32) (now : Int) :
    (p.report_hash = h →
      verify_audit_integrity p auth h now =
        .ok { p with verified := true, verification_timestamp := now })
    ∧ (p.report_hash ≠ h →
      verify_audit_integrity p auth h now = .error .HashMismatch) := by
  constructor
  · intro he
    unfold verify_audit_integrity
    rw [if_pos he]
  · intro hne
    unfold verify_audit_integrity
    rw [if_neg hne]

/-- Witness for C7 on a concrete record with `report_hash = 2`: the
matching call succeeds and stamps the timestamp, the mismatching call
fails `HashMismatch`. -/
theorem c7_verify_integrity_gate_witness :
    verify_audit_integrity ⟨1, 2, "cid", 3, 42, 5, 100, 0, false, 1⟩ 4 2 999 =
      .ok ⟨1, 2, "cid", 3, 42, 5, 100, 999, true, 1⟩
    ∧ verify_audit_integrity ⟨1, 2, "cid", 3, 42, 5, 100, 0, false, 1⟩ 4 6 999 =
      .error .HashMismatch :=
  ⟨(c7_verify_integrity_gate ⟨1, 2, "cid", 3, 42, 5, 100, 0, false, 1⟩ 4 2 999).1
      (by decide),
   (c7_verify_integrity_gate ⟨1, 2, "cid", 3, 42, 5, 100, 0, false, 1⟩ 4 6 999).2
      (by decide)⟩

/-- Claim C8: after `submit_proof(h, r, cid, score, addr, 42)` at time
`t`, `get_proof` on the created record returns the `ProofRetrieved`
event `{h, r, addr, cid, 42, score, t, false}`, all eight fields
included; `get_proof` is a pure projection of the record (the account is
taken immutably in the source), so it performs no state change. -/
theorem c8_get_proof_roundtrip (st : Store) (orc : Pubkey) (h r : Hash32)
    (cid : String) (score : Nat) (addr : Pubkey) (t : Int)
    (hfree : st h = none) :
    (submit_proof st orc h r cid score addr 42 t).map (fun res => get_proof res.2) =
      .ok ⟨h, r, addr, cid, 42, score, t, false⟩ := by
  unfold submit_proof
  rw [hfree]
  rfl

/-- Witness for C8 on the empty store with concrete field values. -/
theorem c8_get_proof_roundtrip_witness :
    (submit_proof (fun _ => none) 1 10 20 "cid8" 30 40 42 55).map
      (fun res => get_proof res.2) =
      .ok ⟨10, 20, 40, "cid8", 42, 30, 55, false⟩ :=
  c8_get_proof_roundtrip (fun _ => none) 1 10 20 "cid8" 30 40 55 (by rfl)

/-- Claim C9: preconditions of `vote_on_proposal`. Account validation
first: an existing vote for `(proposal_id, voter)` fails `AlreadyVoted`,
and a voter without a `StakeAccount` cannot vote. Then the handler's
checks: `vote_weight = 0` fails `InvalidVoteWeight` (the
`InsufficientStake` check passes first since `amount ≥ 0` always),
`vote_weight > amount` fails `InsufficientStake`, and
`0 < vote_weight ≤ amount` succeeds, creating the `VoteAccount` at key
`(proposal_id, voter)`. -/
theorem c9_vote_preconditions (stakes : Stakes) (votes : Votes) (voter : Pubkey)
    (pid w : Nat) (sup : Bool) (now : Int) (sa : StakeAccount) :
    (stakes voter = none → votes (pid, voter) = none →
      vote_on_proposal stakes votes voter pid w sup now = .error .AccountMissing)
    ∧ (stakes voter = some sa → votes (pid, voter) = none → w = 0 →
      vote_on_proposal stakes votes voter pid w sup now = .error .InvalidVoteWeight)
    ∧ (stakes voter = some sa → votes (pid, voter) = none → sa.amount < w →
      vote_on_proposal stakes votes voter pid w sup now = .error .InsufficientStake)
    ∧ (stakes voter = some sa → votes (pid, voter) = none → 0 < w → w ≤ sa.amount →
      vote_on_proposal stakes votes voter pid w sup now =
        .ok (fun k => if k = (pid, voter) then some ⟨pid, voter, w, sup, now⟩ else votes k,
             ⟨pid, voter, w, sup, now⟩))
    ∧ (∀ v : VoteAccount, votes (pid, voter) = some v →
      vote_on_proposal stakes votes voter pid w sup now = .error .AlreadyVoted) := by
  refine ⟨?_, ?_, ?_, ?_, ?_⟩
  · intro hs hv
    simp only [vote_on_proposal, hs, hv]
  · intro hs hv hw
    subst hw
    simp only [vote_on_proposal, hs, hv]
    rw [if_pos (Nat.zero_le _), if_neg (by omega)]
  · intro hs hv hlt
    simp only [vote_on_proposal, hs, hv]
    rw [if_neg (by omega)]
  · intro hs hv hpos hle
    simp only [vote_on_proposal, hs, hv]
    rw [if_pos hle, if_pos hpos]
  · intro v hv
    simp only [vote_on_proposal, hv]

/-- Witness for C9 mirroring the spec's example: a stake of 500 for
voter 7, `vote_weight = 600` fails `InsufficientStake`,
`vote_weight = 500, support = true` succeeds, a repeat vote for
`(3, 7)` fails `AlreadyVoted`, `vote_weight = 0` fails
`InvalidVoteWeight`, and voter 8 with no stake cannot vote. -/
theorem c9_vote_preconditions_witness :
    vote_on_proposal (fun u => if u = 7 then some ⟨7, 500, 86400, 0, 86400, 0⟩ else none)
      (fun _ => none) 7 3 600 true 10 = .error .InsufficientStake
    ∧ vote_on_proposal (fun u => if u = 7 then some ⟨7, 500, 86400, 0, 86400, 0⟩ else none)
      (fun _ => none) 7 3 500 true 10 =
      .ok (fun k => if k = (3, 7) then some ⟨3, 7, 500, true, 10⟩ else none,
           ⟨3, 7, 500, true, 10⟩)
    ∧ vote_on_proposal (fun u => if u = 7 then some ⟨7, 500, 86400, 0, 86400, 0⟩ else none)
      (fun k => if k = (3, 7) then some ⟨3, 7, 500, true, 10⟩ else none) 7 3 500 true 11 =
      .error .AlreadyVoted
    ∧ vote_on_proposal (fun u => if u = 7 then some ⟨7, 500, 86400, 0, 86400, 0⟩ else none)
      (fun _ => none) 7 3 0 true 10 = .error .InvalidVoteWeight
    ∧ vote_on_proposal (fun u => if u = 7 then some ⟨7, 500, 86400, 0, 86400, 0⟩ else none)
      (fun _ => none) 8 3 100 true 10 = .error .AccountMissing :=
  ⟨(c9_vote_preconditions _ _ 7 3 600 true 10 ⟨7, 500, 86400, 0, 86400, 0⟩).2.2.1
      (by decide) (by rfl) (by decide),
   (c9_vote_preconditions _ _ 7 3 500 true 10 ⟨7, 500, 86400, 0, 86400, 0⟩).2.2.2.1
      (by decide) (by rfl) (by decide) (by decide),
   (c9_vote_preconditions _ _ 7 3 500 true 11 ⟨7, 500, 86400, 0, 86400, 0⟩).2.2.2.2
      ⟨3, 7, 500, true, 10⟩ (by decide),
   (c9_vote_preconditions _ _ 7 3 0 true 10 ⟨7, 500, 86400, 0, 86400, 0⟩).2.1
      (by decide) (by rfl) (by rfl),
   (c9_vote_preconditions _ _ 8 3 100 true 10 ⟨7, 500, 86400, 0, 86400, 0⟩).1
      (by decide) (by rfl)⟩

/-- Claim C10: a successful `claim_rewards` changes only
`rewards_claimed`; `user`, `amount`, `duration`, `staked_at` and
`unlock_time` are returned unchanged. -/
theorem c10_claim_rewards_frame (s : StakeAccount) (now : Int)
    (s' : StakeAccount) (amt : Nat)
    (h : claim_rewards s now = .ok (s', amt)) :
    s'.user = s.user ∧ s'.amount = s.amount ∧ s'.duration = s.duration
    ∧ s'.staked_at = s.staked_at ∧ s'.unlock_time = s.unlock_time := by
  simp only [claim_rewards] at h
  split at h
  · split at h
    · injection h with h2
      injection h2 with ha hb
      subst ha
      exact ⟨rfl, rfl, rfl, rfl, rfl⟩
    · exact (Except.noConfusion h)
  · exact (Except.noConfusion h)

/-- Witness for C10 at a concrete successful claim (stake 1000 for a
day, claimed two days after staking). -/
theorem c10_claim_rewards_frame_witness :
    (⟨7, 1000, 86400, 0, 86400, 20⟩ : StakeAccount).user =
      (⟨7, 1000, 86400, 0, 86400, 0⟩ : StakeAccount).user
    ∧ (⟨7, 1000, 86400, 0, 86400, 20⟩ : StakeAccount).amount =
      (⟨7, 1000, 86400, 0, 86400, 0⟩ : StakeAccount).amount
    ∧ (⟨7, 1000, 86400, 0, 86400, 20⟩ : StakeAccount).duration =
      (⟨7, 1000, 86400, 0, 86400, 0⟩ : StakeAccount).duration
    ∧ (⟨7, 1000, 86400, 0, 86400, 20⟩ : StakeAccount).staked_at =
      (⟨7, 1000, 86400, 0, 86400, 0⟩ : StakeAccount).staked_at
    ∧ (⟨7, 1000, 86400, 0, 86400, 20⟩ : StakeAccount).unlock_time =
      (⟨7, 1000, 86400, 0, 86400, 0⟩ : StakeAccount).unlock_time :=
  c10_claim_rewards_frame ⟨7, 1000, 86400, 0, 86400, 0⟩ 172800
    ⟨7, 1000, 86400, 0, 86400, 20⟩ 20 (by rfl)

/-- `claim_rewards_nowrap` restated on an explicit constructor, for
instantiating at concrete stakes. -/
theorem claim_rewards_nowrap_mk (uu : Pubkey) (amt dur : Nat) (sa ut : Int)
    (rc : Nat) (now : Int)
    (hun : ut ≤ now) (hst : sa ≤ now)
    (hlt : now - sa < (9223372036854775808 : Int))
    (hmul : amt / 100 * (now - sa).toNat < u64Mod)
    (hle : rc ≤ amt / 100 * (now - sa).toNat / 86400) :
    claim_rewards ⟨uu, amt, dur, sa, ut, rc⟩ now =
      if amt / 100 * (now - sa).toNat / 86400 - rc > 0 then
        .ok (⟨uu, amt, dur, sa, ut, amt / 100 * (now - sa).toNat / 86400⟩,
             amt / 100 * (now - sa).toNat / 86400 - rc)
      else .error .NoRewardsAvailable :=
  claim_rewards_nowrap ⟨uu, amt, dur, sa, ut, rc⟩ now hun hst hlt hmul hle

/-- Claim C4: `claim_rewards` computes the reward in exactly the
source's order — `daily = amount / 100`, then
`total = daily * elapsed / 86400` (both integer floor divisions), then
`claimable = total - rewards_claimed` (first conjunct, for any stake on
which none of the raw operations wraps) — and in particular, for a
stake of `amount = 1000`, `duration = 86400` made at any nonnegative
time `t0` (bounded so that i64 time arithmetic cannot overflow): a
claim at `t0 + 172800` pays 20 and sets `rewards_claimed = 20`, a
second claim at the same time fails `NoRewardsAvailable`, and a claim
at `t0 + 259200` pays an additional 10. -/
theorem c4_reward_formula_and_scenario (u : Pubkey) (t0 : Int)
    (h0 : 0 ≤ t0) (h1 : t0 + 259200 < (9223372036854775808 : Int)) :
    (∀ (s : StakeAccount) (now : Int),
      s.unlock_time ≤ now → s.staked_at ≤ now →
      now - s.staked_at < (9223372036854775808 : Int) →
      s.amount / 100 * (now - s.staked_at).toNat < u64Mod →
      s.rewards_claimed ≤ s.amount / 100 * (now - s.staked_at).toNat / 86400 →
      claim_rewards s now =
        if s.amount / 100 * (now - s.staked_at).toNat / 86400 - s.rewards_claimed > 0 then
          .ok ({ s with
                  rewards_claimed := s.amount / 100 * (now - s.staked_at).toNat / 86400 },
               s.amount / 100 * (now - s.staked_at).toNat / 86400 - s.rewards_claimed)
        else .error .NoRewardsAvailable)
    ∧ stake_tokens u 1000 86400 t0 = .ok ⟨u, 1000, 86400, t0, t0 + 86400, 0⟩
    ∧ claim_rewards ⟨u, 1000, 86400, t0, t0 + 86400, 0⟩ (t0 + 172800) =
      .ok (⟨u, 1000, 86400, t0, t0 + 86400, 20⟩, 20)
    ∧ claim_rewards ⟨u, 1000, 86400, t0, t0 + 86400, 20⟩ (t0 + 172800) =
      .error .NoRewardsAvailable
    ∧ claim_rewards ⟨u, 1000, 86400, t0, t0 + 86400, 20⟩ (t0 + 259200) =
      .ok (⟨u, 1000, 86400, t0, t0 + 86400, 30⟩, 10) := by
  have hd2 : (t0 + 172800 - t0 : Int) = 172800 := by ring
  have hd3 : (t0 + 259200 - t0 : Int) = 259200 := by ring
  refine ⟨claim_rewards_nowrap, ?_, ?_, ?_, ?_⟩
  · have hcast : i64ofU64 86400 = (86400 : Int) := by decide
    have hw : iadd64 t0 (i64ofU64 86400) = t0 + 86400 := by
      rw [hcast]
      exact i64wrap_eq_self _ (by omega) (by omega)
    unfold stake_tokens
    rw [if_pos (by norm_num), if_pos (by norm_num), hw]
  · have h2 := claim_rewards_nowrap_mk u 1000 86400 t0 (t0 + 86400) 0 (t0 + 172800)
      (by omega) (by omega) (by omega)
      (by rw [hd2]; decide) (by rw [hd2]; exact Nat.zero_le _)
    rw [hd2] at h2
    norm_num at h2
    exact h2
  · have h2 := claim_rewards_nowrap_mk u 1000 86400 t0 (t0 + 86400) 20 (t0 + 172800)
      (by omega) (by omega) (by omega)
      (by rw [hd2]; decide) (by rw [hd2]; decide)
    rw [hd2] at h2
    norm_num at h2
    exact h2
  · have h2 := claim_rewards_nowrap_mk u 1000 86400 t0 (t0 + 86400) 20 (t0 + 259200)
      (by omega) (by omega) (by omega)
      (by rw [hd3]; decide) (by rw [hd3]; decide)
    rw [hd3] at h2
    norm_num at h2
    exact h2

/-- Witness for C4 at `u = 7`, `t0 = 0`: the concrete scenario of the
spec's reward-monotonicity property. -/
theorem c4_reward_formula_and_scenario_witness :
    stake_tokens 7 1000 86400 0 = .ok ⟨7, 1000, 86400, 0, 86400, 0⟩
    ∧ claim_rewards ⟨7, 1000, 86400, 0, 86400, 0⟩ 172800 =
      .ok (⟨7, 1000, 86400, 0, 86400, 20⟩, 20)
    ∧ claim_rewards ⟨7, 1000, 86400, 0, 86400, 20⟩ 172800 =
      .error .NoRewardsAvailable
    ∧ claim_rewards ⟨7, 1000, 86400, 0, 86400, 20⟩ 259200 =
      .ok (⟨7, 1000, 86400, 0, 86400, 30⟩, 10) :=
  ⟨(c4_reward_formula_and_scenario 7 0 (by decide) (by decide)).2.1,
   (c4_reward_formula_and_scenario 7 0 (by decide) (by decide)).2.2.1,
   (c4_reward_formula_and_scenario 7 0 (by decide) (by decide)).2.2.2.1,
   (c4_reward_formula_and_scenario 7 0 (by decide) (by decide)).2.2.2.2⟩

end SecuRizz
